import Mathlib

/-!
Shallow embedding of the Procurement-Request-System repository
(src/app/models.py, src/app/routes/ai.py, src/app/services/database.py).

Python dict-based candidate records are modelled as Lean structures over the
seven extraction fields; scalar field values are modelled by their string
form (the merge code only ever inspects `str(v).strip()`); fallible external
stages (LLM field extraction, the OCR pipeline) are modelled as `Option`
valued inputs of the endpoint; the SQLite tables are modelled as lists of
rows in insertion order (autoincrement ids coincide with list order).
-/

namespace Procurement

/-! ## models.py — VAT id validation -/

/-- Character class [A-Z] of the regex in models.py. -/
def isUpperAlpha (c : Char) : Bool := decide ('A' ≤ c) && decide (c ≤ 'Z')

/-- Character class [0-9] of the regex in models.py. -/
def isDigitChar (c : Char) : Bool := decide ('0' ≤ c) && decide (c ≤ '9')

/-- Character class [0-9A-Z] of the regex in models.py. -/
def isUpperAlnum (c : Char) : Bool := isDigitChar c || isUpperAlpha c

/-- First alternative of VAT_ID_PATTERN: `[A-Z]{2}[0-9A-Z]{2,13}` anchored. -/
def euVatAlt (cs : List Char) : Bool :=
  match cs with
  | a :: b :: rest =>
      isUpperAlpha a && isUpperAlpha b && rest.all isUpperAlnum
        && decide (2 ≤ rest.length) && decide (rest.length ≤ 13)
  | _ => false

/-- Second alternative of VAT_ID_PATTERN: `[0-9]{2}-[0-9]{7}` anchored. -/
def usEinAlt (cs : List Char) : Bool :=
  match cs with
  | [a, b, d, c1, c2, c3, c4, c5, c6, c7] =>
      isDigitChar a && isDigitChar b && decide (d = '-')
        && [c1, c2, c3, c4, c5, c6, c7].all isDigitChar
  | _ => false

/-- Third alternative of VAT_ID_PATTERN: `[0-9]{9,12}` anchored. -/
def numericAlt (cs : List Char) : Bool :=
  cs.all isDigitChar && decide (9 ≤ cs.length) && decide (cs.length ≤ 12)

/-- Full-string match of VAT_ID_PATTERN (models.py lines 12-18): the regex is
anchored with `^(...)$` and is an alternation of the three forms. -/
def vatPatternMatch (s : String) : Bool :=
  euVatAlt s.toList || usEinAlt s.toList || numericAlt s.toList

/-- Python `str.strip()` on the character list: drop whitespace on both ends. -/
def pyStrip (cs : List Char) : List Char :=
  ((cs.dropWhile Char.isWhitespace).reverse.dropWhile Char.isWhitespace).reverse

/-- Python `str.strip()` as a total string function, computed on the
character list so that it is kernel-reducible. -/
def strTrim (s : String) : String := String.mk (pyStrip s.toList)

/-- Normalisation performed by `validate_vat_id` in models.py line 43:
`v.strip().upper().replace(" ", "")`. -/
def normalizeVat (v : String) : String :=
  String.mk (((pyStrip v.toList).map Char.toUpper).filter (fun c => c ≠ ' '))

/-- The `vat_id` field of `ProcurementRequest` (models.py lines 33, 39-50):
pydantic first enforces the Field constraints `min_length=1, max_length=20`
on the raw string, then `validate_vat_id` normalises and matches the pattern,
returning the normalised value on success and raising a ValueError otherwise.
`none` models a validation error. -/
def validate_vat_id (v : String) : Option String :=
  if 1 ≤ v.length ∧ v.length ≤ 20 then
    let v_clean := normalizeVat v
    if vatPatternMatch v_clean then some v_clean else none
  else none

/-! ## routes/ai.py — candidate records, quality gate and merge engine -/

/-- One line item of a candidate record / of the order_lines table
(database.py lines 62-73). -/
structure OrderLine where
  description : String
  unit_price : Rat
  amount : Int
  unit : String
  total_price : Rat
deriving DecidableEq

/-- A candidate extraction record over the seven fields produced by
`extract_document` (ai_service.py). Scalar fields are modelled by their
string form: the merge code in ai.py only ever inspects `str(v).strip()`
and the value itself. -/
structure Candidate where
  vendor_name : String
  vat_id : String
  department : String
  title : String
  total_cost : String
  suggested_commodity_group_id : String
  order_lines : List OrderLine
deriving DecidableEq

/-- ai.py line 19: maximum PDF file size, 10 MiB. -/
def MAX_PDF_SIZE_BYTES : Nat := 10 * 1024 * 1024

/-- ai.py line 80: `not file.filename or not file.filename.lower().endswith(".pdf")`
negated — the filename is accepted when it is present and its lower-cased
form ends in ".pdf", i.e. its last four lower-cased characters are `.pdf`. -/
def validFilename (name : String) : Bool :=
  decide (name ≠ "")
    && decide ((name.toList.map Char.toLower).reverse.take 4 = ['f', 'd', 'p', '.'])

/-- Environment of one call of `extract_document_endpoint`: the upload's
filename and size, the text PyPDF2 extracts from it, and the outcomes of the
two fallible external stages. `structural_extraction` is the result of
`extract_document(pypdf_text)` (ai.py line 106), `none` when that call
raises; `ocr_extraction` is the result of the OCR try-block
(`extract_text_with_ocr` then `extract_document`, ai.py lines 145-148),
`none` when that block raises. -/
structure ExtractEnv where
  filename : String
  content_size : Nat
  pypdf_text : String
  structural_extraction : Option Candidate
  ocr_extraction : Option Candidate
deriving DecidableEq

/-- ai.py lines 103-109: `pypdf_result` is produced only when the structural
text is not empty/whitespace-only, and is `None` when the field-extraction
call raised. -/
def structuralCandidate (env : ExtractEnv) : Option Candidate :=
  if strTrim env.pypdf_text = "" then none else env.structural_extraction

/-- The five-field completeness check of the quality gate (ai.py
lines 118-138): vat_id, vendor_name, department, title non-empty after
stripping, and order_lines non-empty. -/
def isComplete (c : Candidate) : Bool :=
  decide (strTrim c.vat_id ≠ "") && decide (strTrim c.vendor_name ≠ "")
    && decide (strTrim c.department ≠ "") && decide (strTrim c.title ≠ "")
    && !c.order_lines.isEmpty

/-- ai.py lines 112-138: the `needs_ocr` flag — true when there is no
structural candidate, otherwise the chain of elif checks on the five
critical fields. -/
def needsOcr : Option Candidate → Bool
  | none => true
  | some r =>
    if strTrim r.vat_id = "" then true
    else if strTrim r.vendor_name = "" then true
    else if strTrim r.department = "" then true
    else if strTrim r.title = "" then true
    else if r.order_lines.isEmpty then true
    else false

/-- ai.py lines 186-189: order_lines are merged by count,
`pypdf_lines if len(pypdf_lines) >= len(ocr_lines) else ocr_lines`. -/
def mergeOrderLines (pypdf_lines ocr_lines : List OrderLine) : List OrderLine :=
  if ocr_lines.length ≤ pypdf_lines.length then pypdf_lines else ocr_lines

/-- ai.py lines 191-195: for vendor_name and department the OCR value wins
whenever it is non-empty after stripping, `ocr_val if ocr_str else pypdf_val`. -/
def mergeVendorField (pypdf_val ocr_val : String) : String :=
  if strTrim ocr_val ≠ "" then ocr_val else pypdf_val

/-- ai.py lines 197-209: for all other fields prefer the non-empty value,
then the one whose stripped form is strictly longer, ties going to the
PyPDF2 value. -/
def mergeOtherField (pypdf_val ocr_val : String) : String :=
  let pypdf_str := strTrim pypdf_val
  let ocr_str := strTrim ocr_val
  if pypdf_str = "" ∧ ocr_str ≠ "" then ocr_val
  else if ocr_str = "" ∧ pypdf_str ≠ "" then pypdf_val
  else if pypdf_str.length < ocr_str.length then ocr_val
  else pypdf_val

/-- ai.py lines 176-209: the field-by-field merge of the two candidates. -/
def mergeCandidates (pypdf_result ocr_result : Candidate) : Candidate where
  vendor_name := mergeVendorField pypdf_result.vendor_name ocr_result.vendor_name
  vat_id := mergeOtherField pypdf_result.vat_id ocr_result.vat_id
  department := mergeVendorField pypdf_result.department ocr_result.department
  title := mergeOtherField pypdf_result.title ocr_result.title
  total_cost := mergeOtherField pypdf_result.total_cost ocr_result.total_cost
  suggested_commodity_group_id :=
    mergeOtherField pypdf_result.suggested_commodity_group_id
      ocr_result.suggested_commodity_group_id
  order_lines := mergeOrderLines pypdf_result.order_lines ocr_result.order_lines

/-- Outcome of the endpoint: either a candidate record returned to the
caller, or an HTTPException with status code and detail. -/
inductive EndpointResult where
  | ok (c : Candidate)
  | clientError (status : Nat) (detail : String)
deriving DecidableEq

/-- ai.py lines 76-212, `extract_document_endpoint`: validate filename and
size, run PyPDF2 extraction, gate on the five critical fields, run OCR only
when needed, fail 400 when both paths failed, return the sole candidate
directly, or merge the two. The OCR outcome `env.ocr_extraction` is
consulted only under the `needs_ocr` guard, exactly as the try-block at
lines 142-156 runs only then. -/
def extract_document_endpoint (env : ExtractEnv) : EndpointResult :=
  if !validFilename env.filename then
    .clientError 400 "Only PDF files are allowed"
  else if MAX_PDF_SIZE_BYTES < env.content_size then
    .clientError 400 "File too large. Maximum size is 10 MB"
  else
    let pypdf_result := structuralCandidate env
    let ocr_result : Option Candidate :=
      if needsOcr pypdf_result then env.ocr_extraction else none
    if needsOcr pypdf_result && env.ocr_extraction.isNone && pypdf_result.isNone then
      .clientError 400 "Could not extract text from PDF. PyPDF2 and OCR both failed."
    else
      match pypdf_result, ocr_result with
      | none, none => .clientError 400 "Could not extract data from PDF"
      | some a, none => .ok a
      | none, some b => .ok b
      | some a, some b => .ok (mergeCandidates a b)

/-- Outcome of one `page.extract_text()` call (ai.py line 98): the call can
raise on a malformed page, or return a value — `none` models Python `None`,
`some s` a returned string. -/
inductive PageExtract where
  | raises
  | returns (s : Option String)
deriving DecidableEq

/-- ai.py lines 96-98: the structural text accumulation loop
`pypdf_text += page.extract_text() or ""`. The loop body has no try/except,
so a raising page propagates out of the whole loop; a returned falsy value
(`None` or the empty string) contributes the empty string via `or ""`. -/
def pypdf_text_loop (acc : String) : List PageExtract → Except Unit String
  | [] => .ok acc
  | PageExtract.raises :: _ => .error ()
  | PageExtract.returns s :: rest => pypdf_text_loop (acc ++ s.getD "") rest

/-- ai.py lines 95-98: the structural text extraction over all pages in
order, starting from the empty accumulator. -/
def extract_text_structural (pages : List PageExtract) : Except Unit String :=
  pypdf_text_loop "" pages

/-! ## services/database.py — document cache -/

/-- One row of the document_cache table (database.py lines 36-43); the
`extracted_data` column holds the serialised extraction result, modelled
by the record itself. -/
structure CacheRow where
  filename : String
  extracted_data : Candidate
  created_at : String
deriving DecidableEq

/-- The document_cache table: rows keyed by the `file_hash` primary key. -/
abbrev CacheDB := List (String × CacheRow)

/-- database.py lines 107-115, `cache_extraction`: `INSERT OR REPLACE`
keyed on the `file_hash` primary key — the conflicting row (if any) is
removed and the new row inserted. -/
def cache_extraction (db : CacheDB) (file_hash filename : String)
    (extracted_data : Candidate) (now : String) : CacheDB :=
  List.filter (fun r => r.1 ≠ file_hash) db ++ [(file_hash, ⟨filename, extracted_data, now⟩)]

/-- database.py lines 93-104, `get_cached_extraction`: select the row with
the given hash and return its stored extraction result. -/
def get_cached_extraction (db : CacheDB) (file_hash : String) : Option Candidate :=
  (List.find? (fun r => r.1 = file_hash) db).map (fun r => r.2.extracted_data)

/-- The extraction endpoint together with the document-cache state. The body
of `extract_document_endpoint` (ai.py lines 76-212) performs no cache read
and no cache write — neither `get_cached_extraction` nor `cache_extraction`
is called anywhere in ai.py — so the cache state passes through unchanged. -/
def extract_document_endpoint_with_cache (env : ExtractEnv) (db : CacheDB) :
    EndpointResult × CacheDB :=
  (extract_document_endpoint env, db)

/-! ## services/database.py — request store -/

/-- One row of the status_history table (database.py lines 76-84), without
the autoincrement id: list position models insertion order. -/
structure HistoryEntry where
  status : String
  timestamp : String
deriving DecidableEq

/-- One row of the procurement_requests table (database.py lines 46-59). -/
structure RequestRow where
  id : String
  requestor_name : String
  title : String
  vendor_name : String
  vat_id : String
  commodity_group_id : String
  total_cost : Rat
  department : String
  status : String
  created_at : String
deriving DecidableEq

/-- The payload of `create_request` (the validated request data). -/
structure RequestData where
  requestor_name : String
  title : String
  vendor_name : String
  vat_id : String
  commodity_group_id : String
  total_cost : Rat
  department : String
  order_lines : List OrderLine
deriving DecidableEq

/-- The three request-related tables; each list is in insertion order, which
is the order the autoincrement ids (and hence `ORDER BY id`) produce. -/
structure Store where
  requests : List RequestRow
  order_lines : List (String × OrderLine)
  status_history : List (String × HistoryEntry)
deriving DecidableEq

/-- The freshly initialised database (database.py `init_database`). -/
def emptyStore : Store := ⟨[], [], []⟩

/-- Python `f"REQ-{n:04d}"` number formatting: pad with zeros to width 4. -/
def pad4 (n : Nat) : String :=
  let s := toString n
  if 4 ≤ s.length then s else String.mk (List.replicate (4 - s.length) '0') ++ s

/-- database.py lines 119-125, `get_next_request_id`: count the stored
requests and format `REQ-%04d` of count+1. -/
def get_next_request_id (store : Store) : String :=
  "REQ-" ++ pad4 (store.requests.length + 1)

/-- The shape returned by `get_request` (database.py lines 204-219). -/
structure LifecycleRecord where
  id : String
  data : RequestData
  status : String
  status_history : List HistoryEntry
  created_at : String
deriving DecidableEq

/-- database.py lines 173-219, `get_request`: select the request row by id
(`fetchone` returns the first match), collect its order lines and its
status-history entries in insertion order. -/
def get_request (store : Store) (request_id : String) : Option LifecycleRecord :=
  match List.find? (fun r => r.id = request_id) store.requests with
  | none => none
  | some row =>
      some {
        id := row.id
        data := {
          requestor_name := row.requestor_name
          title := row.title
          vendor_name := row.vendor_name
          vat_id := row.vat_id
          commodity_group_id := row.commodity_group_id
          total_cost := row.total_cost
          department := row.department
          order_lines :=
            (List.filter (fun l => l.1 = request_id) store.order_lines).map (fun l => l.2) }
        status := row.status
        status_history :=
          (List.filter (fun h => h.1 = request_id) store.status_history).map (fun h => h.2)
        created_at := row.created_at }

/-- database.py lines 129-170, `create_request`: generate the next id,
insert the request row with status "Open", insert its order lines, seed the
status history with `{Open, created_at}`, and return `get_request` of the
new id together with the new store state. -/
def create_request (store : Store) (request_data : RequestData) (now : String) :
    Store × Option LifecycleRecord :=
  let request_id := get_next_request_id store
  let row : RequestRow := {
    id := request_id
    requestor_name := request_data.requestor_name
    title := request_data.title
    vendor_name := request_data.vendor_name
    vat_id := request_data.vat_id
    commodity_group_id := request_data.commodity_group_id
    total_cost := request_data.total_cost
    department := request_data.department
    status := "Open"
    created_at := now }
  let store' : Store := {
    requests := store.requests ++ [row]
    order_lines := store.order_lines ++ request_data.order_lines.map (fun l => (request_id, l))
    status_history := store.status_history ++ [(request_id, ⟨"Open", now⟩)] }
  (store', get_request store' request_id)

/-- database.py lines 232-252, `update_request_status`: if the id does not
exist return None leaving the store unchanged; otherwise overwrite the
request row's status, append `{status, now}` to the status history, and
return `get_request` of the id with the new store state. -/
def update_request_status (store : Store) (request_id status now : String) :
    Store × Option LifecycleRecord :=
  if (List.find? (fun r => r.id = request_id) store.requests).isNone then
    (store, none)
  else
    let store' : Store := {
      requests := store.requests.map
        (fun r => if r.id = request_id then { r with status := status } else r)
      order_lines := store.order_lines
      status_history := store.status_history ++ [(request_id, ⟨status, now⟩)] }
    (store', get_request store' request_id)

/-- No row, line or history entry of the store already uses the id the next
`create_request` will generate. Reachable store states satisfy this: ids are
generated sequentially from the row count, and rows are never deleted. -/
def FreshNextId (store : Store) : Prop :=
  (∀ r ∈ store.requests, r.id ≠ get_next_request_id store)
  ∧ (∀ l ∈ store.order_lines, l.1 ≠ get_next_request_id store)
  ∧ (∀ h ∈ store.status_history, h.1 ≠ get_next_request_id store)

/-! ## Concrete sample values used in witnesses -/

/-- The line item called x in the spec's merge example. -/
def lineX : OrderLine := ⟨"Laptop", 800, 2, "pcs", 1600⟩

/-- The line item called y in the spec's merge example. -/
def lineY : OrderLine := ⟨"Dock", 120, 2, "pcs", 240⟩

/-- Candidate A of the spec's merge-engine example. -/
def exampleCandA : Candidate := ⟨"", "", "", "ACME Corp", "", "", [lineX, lineY]⟩

/-- Candidate B of the spec's merge-engine example. -/
def exampleCandB : Candidate := ⟨"Foo GmbH", "", "", "A", "", "", [lineX]⟩

/-- A candidate that passes the five-field completeness check. -/
def completeCandidate : Candidate :=
  ⟨"ACME GmbH", "DE123456789", "Purchasing", "Office chairs", "238.00", "001", [lineX]⟩

/-- A candidate with every critical field empty. -/
def emptyCandidate : Candidate := ⟨"", "", "", "", "", "", []⟩

/-- A concrete upload whose structural candidate is complete. -/
def sampleUploadEnv : ExtractEnv :=
  ⟨"offer.pdf", 4096, "ACME GmbH offer text", some completeCandidate, none⟩

/-- A concrete scanned upload: no structural text, OCR yields the empty
candidate. -/
def scanOnlyEnv : ExtractEnv := ⟨"scan.pdf", 4096, "", none, some emptyCandidate⟩

/-- A concrete scanned upload where the OCR stage raises as well. -/
def bothFailEnv : ExtractEnv := ⟨"scan.pdf", 4096, "", none, none⟩

/-- A sample validated request payload. -/
def sampleRequestData : RequestData :=
  ⟨"Alice Smith", "Office chairs", "ACME GmbH", "DE123456789", "001", 238, "Purchasing", [lineX]⟩

/-! ## Shared helper lemmas -/

/-- The elif chain computing `needs_ocr` on an existing candidate is the
negation of the five-field completeness check. -/
theorem needsOcr_some (c : Candidate) : needsOcr (some c) = !isComplete c := by
  unfold needsOcr isComplete
  by_cases h1 : strTrim c.vat_id = "" <;>
    by_cases h2 : strTrim c.vendor_name = "" <;>
      by_cases h3 : strTrim c.department = "" <;>
        by_cases h4 : strTrim c.title = "" <;>
          by_cases h5 : c.order_lines.isEmpty <;>
            simp [h1, h2, h3, h4, h5]

/-- Inserting a page whose extract_text call returns a falsy value (Python
`None` or `""`) anywhere in the page list leaves the loop's outcome
unchanged: the page contributes the empty string and the remaining pages
are still processed. -/
theorem pypdf_text_loop_skip (ps1 ps2 : List PageExtract) (acc : String)
    (s : Option String) (hs : s.getD "" = "") :
    pypdf_text_loop acc (ps1 ++ PageExtract.returns s :: ps2)
      = pypdf_text_loop acc (ps1 ++ ps2) := by
  induction ps1 generalizing acc with
  | nil =>
      show pypdf_text_loop (acc ++ s.getD "") ps2 = pypdf_text_loop acc ps2
      rw [hs, String.append_empty]
  | cons x xs ih =>
      cases x with
      | raises => rfl
      | returns t => exact ih _

/-- A page list containing a raising page always aborts the loop with an
error, whatever was accumulated and whatever pages follow. -/
theorem pypdf_text_loop_raises (ps1 ps2 : List PageExtract) (acc : String) :
    pypdf_text_loop acc (ps1 ++ PageExtract.raises :: ps2) = .error () := by
  induction ps1 generalizing acc with
  | nil => rfl
  | cons x xs ih =>
      cases x with
      | raises => rfl
      | returns t => exact ih _

/-- A string has length zero exactly when it is empty. -/
theorem string_length_eq_zero_iff (t : String) : t.length = 0 ↔ t = "" := by
  cases t with
  | mk l =>
      simp only [String.length]
      rw [List.length_eq_zero]
      constructor
      · intro h
        subst h
        rfl
      · intro h
        have hdata : (String.mk l).data = ("" : String).data := by rw [h]
        simpa using hdata

/-! ## Claim theorems: merge engine -/

/-- C2: for every pair of candidates the merged order_lines are the
structural candidate's list whenever its length is greater than or equal to
the OCR candidate's, and the OCR candidate's list otherwise; equal counts
yield the structural list. -/
theorem merge_order_lines_policy (a b : Candidate) :
    (b.order_lines.length ≤ a.order_lines.length →
      (mergeCandidates a b).order_lines = a.order_lines)
    ∧ (a.order_lines.length < b.order_lines.length →
      (mergeCandidates a b).order_lines = b.order_lines)
    ∧ (a.order_lines.length = b.order_lines.length →
      (mergeCandidates a b).order_lines = a.order_lines) := by
  refine ⟨fun h => ?_, fun h => ?_, fun h => ?_⟩ <;>
    simp only [mergeCandidates, mergeOrderLines]
  · rw [if_pos h]
  · rw [if_neg (by omega)]
  · rw [if_pos (by omega)]

/-- Witness for C2 at the spec's example lists: two structural lines beat
one OCR line, and with equal one-line counts the structural list wins. -/
theorem merge_order_lines_policy_witness :
    (mergeCandidates exampleCandA exampleCandB).order_lines = [lineX, lineY] :=
  (merge_order_lines_policy exampleCandA exampleCandB).1 (by decide)

/-- C3: the merged vendor_name and department take the OCR candidate's value
exactly when it is non-empty after trimming, regardless of length, and fall
back to the structural candidate's value otherwise. -/
theorem merge_vendor_department_policy (a b : Candidate) :
    ((strTrim b.vendor_name ≠ "" → (mergeCandidates a b).vendor_name = b.vendor_name)
      ∧ (strTrim b.vendor_name = "" → (mergeCandidates a b).vendor_name = a.vendor_name))
    ∧ ((strTrim b.department ≠ "" → (mergeCandidates a b).department = b.department)
      ∧ (strTrim b.department = "" → (mergeCandidates a b).department = a.department)) := by
  refine ⟨⟨fun h => ?_, fun h => ?_⟩, ⟨fun h => ?_, fun h => ?_⟩⟩ <;>
    simp only [mergeCandidates, mergeVendorField] <;>
    simp [h]

/-- Witness for C3 at the spec's example: the OCR vendor name "Foo GmbH" is
non-empty and wins even though it is compared against an empty value. -/
theorem merge_vendor_department_policy_witness :
    (mergeCandidates exampleCandA exampleCandB).vendor_name = "Foo GmbH" :=
  (merge_vendor_department_policy exampleCandA exampleCandB).1.1 (by decide)

/-- C4: every other merged field (vat_id, title, total_cost,
suggested_commodity_group_id) is computed by the generic policy: the value
whose trimmed form is non-empty wins, the strictly longer trimmed form wins
when both are non-empty, and equal trimmed lengths (including both empty)
yield the structural candidate's value. -/
theorem merge_other_fields_policy :
    (∀ av bv : String,
      (strTrim av ≠ "" ∧ strTrim bv = "" → mergeOtherField av bv = av)
      ∧ (strTrim av = "" ∧ strTrim bv ≠ "" → mergeOtherField av bv = bv)
      ∧ (strTrim bv ≠ "" ∧ (strTrim bv).length < (strTrim av).length → mergeOtherField av bv = av)
      ∧ (strTrim av ≠ "" ∧ (strTrim av).length < (strTrim bv).length → mergeOtherField av bv = bv)
      ∧ ((strTrim av).length = (strTrim bv).length → mergeOtherField av bv = av))
    ∧ ∀ a b : Candidate,
      (mergeCandidates a b).vat_id = mergeOtherField a.vat_id b.vat_id
      ∧ (mergeCandidates a b).title = mergeOtherField a.title b.title
      ∧ (mergeCandidates a b).total_cost = mergeOtherField a.total_cost b.total_cost
      ∧ (mergeCandidates a b).suggested_commodity_group_id
          = mergeOtherField a.suggested_commodity_group_id
              b.suggested_commodity_group_id := by
  constructor
  · intro av bv
    have keyA : (strTrim av).length = 0 ↔ strTrim av = "" := string_length_eq_zero_iff (strTrim av)
    have keyB : (strTrim bv).length = 0 ↔ strTrim bv = "" := string_length_eq_zero_iff (strTrim bv)
    refine ⟨fun h => ?_, fun h => ?_, fun h => ?_, fun h => ?_, fun h => ?_⟩ <;>
      simp only [mergeOtherField]
    · rw [if_neg (fun hc => h.1 hc.1), if_pos ⟨h.2, h.1⟩]
    · rw [if_pos ⟨h.1, h.2⟩]
    · have ha : strTrim av ≠ "" := fun hc => by
        have h0 := keyA.mpr hc
        have := h.2
        omega
      rw [if_neg (fun hc => ha hc.1), if_neg (fun hc => h.1 hc.1),
        if_neg (by have := h.2; omega)]
    · have hb : strTrim bv ≠ "" := fun hc => by
        have h0 := keyB.mpr hc
        have := h.2
        omega
      rw [if_neg (fun hc => h.1 hc.1), if_neg (fun hc => hb hc.1), if_pos h.2]
    · have hiff : strTrim av = "" ↔ strTrim bv = "" := by
        rw [← keyA, ← keyB, h]
      rw [if_neg (fun hc => hc.2 (hiff.mp hc.1)),
        if_neg (fun hc => hc.2 (hiff.mpr hc.1)), if_neg (by omega)]
  · intro a b
    exact ⟨rfl, rfl, rfl, rfl⟩

/-- Witness for C4 at the spec's example: titles "ACME Corp" and "A" are
both non-empty, the strictly longer one wins. -/
theorem merge_other_fields_policy_witness :
    (mergeCandidates exampleCandA exampleCandB).title = "ACME Corp" := by
  rw [(merge_other_fields_policy.2 exampleCandA exampleCandB).2.1]
  exact (merge_other_fields_policy.1 exampleCandA.title exampleCandB.title).2.2.1 (by decide)

/-! ## Claim theorems: structural text extractor -/

/-- C5 counterexample: a two-page document whose second page's extract_text
call raises makes the whole structural extraction fail — ai.py lines 96-98
have no per-page exception handling — refuting that a single unreadable
page never causes the whole extraction request to fail. -/
theorem structural_extractor_raise_fails_request :
    extract_text_structural
        [PageExtract.returns (some "page one text"), PageExtract.raises]
      = Except.error () := rfl

/-- C5 amended: a page whose extract_text call returns no text (Python None
or the empty string) contributes the empty string in place and the
remaining pages are still processed; but the loop has no exception
handling, so a page whose extract_text call raises fails the whole
extraction, wherever in the document it occurs. -/
theorem structural_extractor_page_handling (ps1 ps2 : List PageExtract) :
    extract_text_structural (ps1 ++ PageExtract.returns none :: ps2)
      = extract_text_structural (ps1 ++ ps2)
    ∧ extract_text_structural (ps1 ++ PageExtract.returns (some "") :: ps2)
      = extract_text_structural (ps1 ++ ps2)
    ∧ extract_text_structural (ps1 ++ PageExtract.raises :: ps2)
      = Except.error () :=
  ⟨pypdf_text_loop_skip ps1 ps2 "" none rfl,
    pypdf_text_loop_skip ps1 ps2 "" (some "") rfl,
    pypdf_text_loop_raises ps1 ps2 ""⟩

/-! ## Endpoint computation lemmas -/

/-- When the structural candidate exists and is complete, the endpoint skips
OCR and returns the structural candidate unchanged. -/
theorem endpoint_of_complete (env : ExtractEnv)
    (hname : validFilename env.filename = true)
    (hsize : env.content_size ≤ MAX_PDF_SIZE_BYTES)
    (a : Candidate) (hsc : structuralCandidate env = some a)
    (hcomp : isComplete a = true) :
    extract_document_endpoint env = .ok a := by
  have hlt : ¬ MAX_PDF_SIZE_BYTES < env.content_size := Nat.not_lt.mpr hsize
  have hrec : needsOcr (some a) = false := by rw [needsOcr_some, hcomp]; rfl
  simp [extract_document_endpoint, hname, hlt, hsc, hrec]

/-- When there is no structural candidate and the OCR stage produced a
candidate, the endpoint returns the OCR candidate unchanged. -/
theorem endpoint_of_ocr_only (env : ExtractEnv)
    (hname : validFilename env.filename = true)
    (hsize : env.content_size ≤ MAX_PDF_SIZE_BYTES)
    (hsc : structuralCandidate env = none)
    (b : Candidate) (hocr : env.ocr_extraction = some b) :
    extract_document_endpoint env = .ok b := by
  have hlt : ¬ MAX_PDF_SIZE_BYTES < env.content_size := Nat.not_lt.mpr hsize
  simp [extract_document_endpoint, hname, hlt, hsc, hocr, needsOcr]

/-- When neither path produced a candidate, the endpoint raises the 400
client error of ai.py lines 152-156. -/
theorem endpoint_of_both_failed (env : ExtractEnv)
    (hname : validFilename env.filename = true)
    (hsize : env.content_size ≤ MAX_PDF_SIZE_BYTES)
    (hsc : structuralCandidate env = none)
    (hocr : env.ocr_extraction = none) :
    extract_document_endpoint env =
      .clientError 400 "Could not extract text from PDF. PyPDF2 and OCR both failed." := by
  have hlt : ¬ MAX_PDF_SIZE_BYTES < env.content_size := Nat.not_lt.mpr hsize
  simp [extract_document_endpoint, hname, hlt, hsc, hocr, needsOcr]

/-- When a structural candidate exists and the OCR stage raised, the
endpoint returns the structural candidate alone — whether or not it passed
the completeness check. -/
theorem endpoint_of_ocr_error_with_A (env : ExtractEnv)
    (hname : validFilename env.filename = true)
    (hsize : env.content_size ≤ MAX_PDF_SIZE_BYTES)
    (a : Candidate) (hsc : structuralCandidate env = some a)
    (hocr : env.ocr_extraction = none) :
    extract_document_endpoint env = .ok a := by
  have hlt : ¬ MAX_PDF_SIZE_BYTES < env.content_size := Nat.not_lt.mpr hsize
  by_cases hcomp : isComplete a
  · exact endpoint_of_complete env hname hsize a hsc hcomp
  · have hrec : needsOcr (some a) = true := by
      rw [needsOcr_some]
      simp [hcomp]
    simp [extract_document_endpoint, hname, hlt, hsc, hocr, hrec]

/-! ## Claim theorems: orchestration and quality gate -/

/-- C1: for every valid upload, the OCR path runs (the `needs_ocr` guard of
ai.py line 142 holds) exactly when there is no structural candidate or it
fails the five-field completeness check; and when the structural candidate
passes all five checks, the endpoint's result is `ok` of that candidate
unmerged, for every possible outcome of the OCR stage — the OCR extractor
is never consulted. -/
theorem quality_gate_ocr_iff (env : ExtractEnv)
    (hname : validFilename env.filename = true)
    (hsize : env.content_size ≤ MAX_PDF_SIZE_BYTES) :
    (needsOcr (structuralCandidate env) = true ↔
      structuralCandidate env = none
        ∨ ∃ a, structuralCandidate env = some a ∧ isComplete a = false)
    ∧ ∀ a, structuralCandidate env = some a → isComplete a = true →
        ∀ o : Option Candidate,
          extract_document_endpoint { env with ocr_extraction := o }
            = .ok a := by
  constructor
  · cases hsc : structuralCandidate env with
    | none => simp [needsOcr]
    | some a =>
        rw [needsOcr_some]
        by_cases hcomp : isComplete a <;> simp [hcomp]
  · intro a hsc hcomp o
    exact endpoint_of_complete { env with ocr_extraction := o } hname hsize a hsc hcomp

/-- Witness for C1: a concrete upload with a complete structural candidate
is returned as-is with the OCR stage skipped. -/
theorem quality_gate_ocr_iff_witness :
    extract_document_endpoint sampleUploadEnv = .ok completeCandidate :=
  (quality_gate_ocr_iff sampleUploadEnv (by decide) (by decide)).2
    completeCandidate (by decide) (by decide) none

/-- C6: for every valid upload whose OCR stage raises, the endpoint fails
with the 400 client error when no structural candidate exists, and returns
the structural candidate alone (the request does not fail) when one
exists. -/
theorem ocr_failure_handling (env : ExtractEnv)
    (hname : validFilename env.filename = true)
    (hsize : env.content_size ≤ MAX_PDF_SIZE_BYTES)
    (hocr : env.ocr_extraction = none) :
    (structuralCandidate env = none →
      extract_document_endpoint env =
        .clientError 400 "Could not extract text from PDF. PyPDF2 and OCR both failed.")
    ∧ ∀ a, structuralCandidate env = some a →
        extract_document_endpoint env = .ok a := by
  constructor
  · intro hsc
    exact endpoint_of_both_failed env hname hsize hsc hocr
  · intro a hsc
    exact endpoint_of_ocr_error_with_A env hname hsize a hsc hocr

/-- Witness for C6: a concrete scanned upload with no structural text whose
OCR stage raises yields the 400 error. -/
theorem ocr_failure_handling_witness :
    extract_document_endpoint bothFailEnv =
      .clientError 400 "Could not extract text from PDF. PyPDF2 and OCR both failed." :=
  (ocr_failure_handling bothFailEnv (by decide) (by decide) (by decide)).1 (by decide)

/-- C10: the completeness check is applied only to the structural candidate:
when the structural path yields no candidate and the OCR path yields `b`,
the endpoint returns `b` exactly as produced, with no condition on `b`'s
fields. -/
theorem ocr_candidate_never_gated (env : ExtractEnv)
    (hname : validFilename env.filename = true)
    (hsize : env.content_size ≤ MAX_PDF_SIZE_BYTES)
    (hsc : structuralCandidate env = none)
    (b : Candidate) (hocr : env.ocr_extraction = some b) :
    extract_document_endpoint env = .ok b :=
  endpoint_of_ocr_only env hname hsize hsc b hocr

/-- Witness for C10: a scanned upload whose OCR candidate has every critical
field empty is still returned unchanged. -/
theorem ocr_candidate_never_gated_witness :
    extract_document_endpoint scanOnlyEnv = .ok emptyCandidate :=
  ocr_candidate_never_gated scanOnlyEnv (by decide) (by decide) (by decide)
    emptyCandidate (by decide)

/-! ## Claim theorem: VAT id validator -/

/-- C8: within the 20-character field limit the validator accepts exactly
the normalised strings matching the pattern; it accepts the four sample
ids, rejects "abc" and the empty string, and rejects every string longer
than 20 characters with a validation error. -/
theorem vat_id_validation :
    (∀ v : String, v.length ≤ 20 →
      ((validate_vat_id v).isSome = true ↔ vatPatternMatch (normalizeVat v) = true))
    ∧ validate_vat_id "DE123456789" = some "DE123456789"
    ∧ validate_vat_id "ATU12345678" = some "ATU12345678"
    ∧ validate_vat_id "12-3456789" = some "12-3456789"
    ∧ validate_vat_id "123456789012" = some "123456789012"
    ∧ validate_vat_id "abc" = none
    ∧ validate_vat_id "" = none
    ∧ ∀ v : String, 20 < v.length → validate_vat_id v = none := by
  refine ⟨?_, by decide, by decide, by decide, by decide, by decide, by decide, ?_⟩
  · intro v hle
    by_cases h1 : 1 ≤ v.length
    · simp only [validate_vat_id, if_pos (And.intro h1 hle)]
      by_cases hm : vatPatternMatch (normalizeVat v) = true
      · simp [hm]
      · simp [hm]
    · have hv : v = "" := (string_length_eq_zero_iff v).mp (by omega)
      subst hv
      rw [show validate_vat_id "" = none from by decide]
      simp only [Option.isSome_none, Bool.false_eq_true, false_iff]
      decide
  · intro v hgt
    simp only [validate_vat_id]
    rw [if_neg (fun hc => by omega)]

/-- Witness for C8: a sample id inside the length bound is accepted, and a
21-character numeric string is rejected. -/
theorem vat_id_validation_witness :
    (validate_vat_id "DE123456789").isSome = true
    ∧ validate_vat_id "123456789012345678901" = none :=
  ⟨(vat_id_validation.1 "DE123456789" (by decide)).mpr (by decide),
    vat_id_validation.2.2.2.2.2.2.2 "123456789012345678901" (by decide)⟩

/-! ## Claim theorems: document cache -/

/-- C7 counterexample: a successfully processed upload leaves the document
cache exactly as it was — empty — so no cache entry keyed by the content
hash of the uploaded bytes is produced; the extraction endpoint never calls
cache_extraction. -/
theorem endpoint_writes_no_cache_entry :
    (extract_document_endpoint_with_cache sampleUploadEnv []).1 = .ok completeCandidate
    ∧ (extract_document_endpoint_with_cache sampleUploadEnv []).2 = [] :=
  ⟨by decide, rfl⟩

/-- Looking up a key other than the filtered-out one is unaffected by the
filter step of the INSERT OR REPLACE. -/
theorem find?_key_filter (db : CacheDB) (fh k : String) (hk : k ≠ fh) :
    List.find? (fun r => r.1 = k) (List.filter (fun r => r.1 ≠ fh) db)
      = List.find? (fun r => r.1 = k) db := by
  induction db with
  | nil => rfl
  | cons x xs ih =>
      by_cases hx : x.1 = fh
      · have hxk : ¬ (x.1 = k) := fun hc => hk (hc ▸ hx)
        rw [List.filter_cons_of_neg (by simpa using hx),
          List.find?_cons_of_neg _ (by simpa using hxk), ih]
      · rw [List.filter_cons_of_pos (by simpa using hx)]
        by_cases hxk : x.1 = k
        · rw [List.find?_cons_of_pos _ (by simpa using hxk),
            List.find?_cons_of_pos _ (by simpa using hxk)]
        · rw [List.find?_cons_of_neg _ (by simpa using hxk),
            List.find?_cons_of_neg _ (by simpa using hxk), ih]

/-- C7 amended: cache_extraction itself stores the filename and extraction
result keyed by the file hash with last-write-wins overwrite, leaving
exactly one row for that hash and all other hashes untouched. -/
theorem cache_extraction_last_write_wins (db : CacheDB) (fh fn : String)
    (d : Candidate) (now : String) :
    get_cached_extraction (cache_extraction db fh fn d now) fh = some d
    ∧ List.countP (fun r => r.1 = fh) (cache_extraction db fh fn d now) = 1
    ∧ ∀ k : String, k ≠ fh →
        get_cached_extraction (cache_extraction db fh fn d now) k
          = get_cached_extraction db k := by
  refine ⟨?_, ?_, ?_⟩
  · unfold get_cached_extraction cache_extraction
    rw [List.find?_append]
    have hnone : List.find? (fun r => r.1 = fh)
        (List.filter (fun r => r.1 ≠ fh) db) = none := by
      rw [List.find?_eq_none]
      intro x hx
      have hne := (List.mem_filter.mp hx).2
      simp only [decide_eq_true_eq] at hne ⊢
      exact hne
    rw [hnone]
    simp
  · unfold cache_extraction
    rw [List.countP_append]
    have h0 : List.countP (fun r => r.1 = fh)
        (List.filter (fun r => r.1 ≠ fh) db) = 0 := by
      rw [List.countP_eq_zero]
      intro x hx
      have hne := (List.mem_filter.mp hx).2
      simp only [decide_eq_true_eq] at hne ⊢
      exact hne
    rw [h0]
    simp
  · intro k hk
    unfold get_cached_extraction cache_extraction
    rw [List.find?_append]
    have hlast : List.find? (fun r => r.1 = k)
        ([(fh, (⟨fn, d, now⟩ : CacheRow))]) = none := by
      rw [List.find?_singleton, if_neg (by simpa using Ne.symm hk)]
    rw [hlast, Option.or_none, find?_key_filter db fh k hk]

/-- Witness for C7's amended theorem: writing the same hash twice leaves
the second entry as the single row for that hash, other keys unchanged. -/
theorem cache_extraction_last_write_wins_witness :
    get_cached_extraction
        (cache_extraction (cache_extraction [] "h1" "a.pdf" emptyCandidate "t0")
          "h1" "b.pdf" completeCandidate "t1") "h1" = some completeCandidate
    ∧ List.countP (fun r => r.1 = "h1")
        (cache_extraction (cache_extraction [] "h1" "a.pdf" emptyCandidate "t0")
          "h1" "b.pdf" completeCandidate "t1") = 1
    ∧ get_cached_extraction
        (cache_extraction (cache_extraction [] "h1" "a.pdf" emptyCandidate "t0")
          "h1" "b.pdf" completeCandidate "t1") "h2"
      = get_cached_extraction (cache_extraction [] "h1" "a.pdf" emptyCandidate "t0") "h2" := by
  have h := cache_extraction_last_write_wins
    (cache_extraction [] "h1" "a.pdf" emptyCandidate "t0") "h1" "b.pdf" completeCandidate "t1"
  exact ⟨h.1, h.2.1, h.2.2 "h2" (by decide)⟩

/-! ## Request-store lemmas -/

/-- Filtering the freshly inserted order lines by the new request id keeps
all of them. -/
theorem filter_pair_const (rid : String) (ls : List OrderLine) :
    List.filter ((fun l : String × OrderLine => decide (l.1 = rid)) ∘
      fun l => (rid, l)) ls = ls := by
  induction ls with
  | nil => rfl
  | cons x xs ih => simp [Function.comp, ih]

/-- Creating a request on a store whose next id is fresh returns the record
with status "Open" and the seeded one-entry history. -/
theorem create_request_fresh (store : Store) (d : RequestData) (now : String)
    (hfresh : FreshNextId store) :
    (create_request store d now).2 =
      some { id := get_next_request_id store, data := d, status := "Open",
             status_history := [⟨"Open", now⟩], created_at := now } := by
  obtain ⟨hreq, hline, hhist⟩ := hfresh
  have h1 : List.find? (fun r => r.id = get_next_request_id store) store.requests = none := by
    rw [List.find?_eq_none]
    intro x hx
    simpa using hreq x hx
  have h2 : List.filter (fun l => l.1 = get_next_request_id store) store.order_lines = [] := by
    rw [List.filter_eq_nil_iff]
    intro x hx
    simpa using hline x hx
  have h3 : List.filter (fun h => h.1 = get_next_request_id store) store.status_history = [] := by
    rw [List.filter_eq_nil_iff]
    intro x hx
    simpa using hhist x hx
  simp [create_request, get_request, List.find?_append, h1, h2, h3,
    List.filter_append, List.filter_map, filter_pair_const]

/-- Updating the status of a request found in the store appends exactly one
history entry, overwrites the status with the same value, and leaves the
identity, data, creation time and all previous history entries unchanged;
the returned record is `get_request` of the updated store. -/
theorem update_request_status_found (store : Store) (rid st now : String)
    (r : LifecycleRecord) (h : get_request store rid = some r) :
    (update_request_status store rid st now).2 =
      some { r with status := st, status_history := r.status_history ++ [⟨st, now⟩] }
    ∧ (update_request_status store rid st now).2 =
      get_request (update_request_status store rid st now).1 rid := by
  unfold get_request at h
  cases hfind : List.find? (fun rr => rr.id = rid) store.requests with
  | none =>
      rw [hfind] at h
      exact absurd h (by simp)
  | some row =>
      rw [hfind] at h
      have hrowid : row.id = rid := by simpa using List.find?_some hfind
      have hmap : List.find? (fun rr => rr.id = rid)
          (store.requests.map
            (fun rr => if rr.id = rid then { rr with status := st } else rr))
          = some { row with status := st } := by
        rw [List.find?_map]
        have hpred : ((fun rr : RequestRow => decide (rr.id = rid)) ∘
            (fun rr => if rr.id = rid then { rr with status := st } else rr))
            = fun rr : RequestRow => decide (rr.id = rid) := by
          funext rr
          by_cases hrr : rr.id = rid <;> simp [Function.comp, hrr]
        rw [hpred, hfind]
        simp [hrowid]
      simp only [Option.some.injEq] at h
      subst h
      unfold update_request_status
      rw [hfind]
      simp only [Option.isNone_some, Bool.false_eq_true, if_false]
      constructor
      · unfold get_request
        rw [hmap]
        simp [List.filter_append, hrowid]
      · trivial

/-! ## Claim theorem: request lifecycle and status history -/

/-- C9: creation seeds the status history with exactly the one entry
{Open, created_at} and status Open; every status update on an existing
request appends exactly one {status, timestamp} entry, overwrites the
status to that value, and leaves the id, data, creation time and all
existing history entries unchanged; and the create / In Progress / Closed
scenario yields status Closed with the three-entry history in insertion
order. Stores reachable from the empty store satisfy the freshness
hypothesis because ids are generated sequentially from the row count and
rows are never deleted. -/
theorem status_history_append_only :
    (∀ (store : Store) (d : RequestData) (now : String),
      FreshNextId store →
      (create_request store d now).2 =
        some { id := get_next_request_id store, data := d, status := "Open",
               status_history := [⟨"Open", now⟩], created_at := now })
    ∧ (∀ (store : Store) (rid st now : String) (r : LifecycleRecord),
      get_request store rid = some r →
      (update_request_status store rid st now).2 =
        some { r with status := st,
                      status_history := r.status_history ++ [⟨st, now⟩] })
    ∧ (∀ (store : Store) (d : RequestData) (now t1 t2 : String),
      FreshNextId store →
      (update_request_status
          (update_request_status (create_request store d now).1
            (get_next_request_id store) "In Progress" t1).1
          (get_next_request_id store) "Closed" t2).2 =
        some { id := get_next_request_id store, data := d, status := "Closed",
               status_history := [⟨"Open", now⟩, ⟨"In Progress", t1⟩, ⟨"Closed", t2⟩],
               created_at := now }) := by
  refine ⟨create_request_fresh, ?_, ?_⟩
  · intro store rid st now r h
    exact (update_request_status_found store rid st now r h).1
  · intro store d now t1 t2 hfresh
    have hget1 : get_request (create_request store d now).1 (get_next_request_id store)
        = some { id := get_next_request_id store, data := d, status := "Open",
                 status_history := [⟨"Open", now⟩], created_at := now } :=
      create_request_fresh store d now hfresh
    have h1 := update_request_status_found (create_request store d now).1
      (get_next_request_id store) "In Progress" t1 _ hget1
    have hget2 := h1.2.symm.trans h1.1
    have h2 := update_request_status_found
      (update_request_status (create_request store d now).1
        (get_next_request_id store) "In Progress" t1).1
      (get_next_request_id store) "Closed" t2 _ hget2
    exact h2.1

/-- Witness for C9: from the empty store, create then update to In Progress
then Closed yields status Closed and the three-entry history in order. -/
theorem status_history_append_only_witness :
    (update_request_status
        (update_request_status (create_request emptyStore sampleRequestData "t0").1
          "REQ-0001" "In Progress" "t1").1
        "REQ-0001" "Closed" "t2").2 =
      some { id := "REQ-0001", data := sampleRequestData, status := "Closed",
             status_history := [⟨"Open", "t0"⟩, ⟨"In Progress", "t1"⟩, ⟨"Closed", "t2"⟩],
             created_at := "t0" } := by
  have h := status_history_append_only.2.2 emptyStore sampleRequestData "t0" "t1" "t2"
    (by refine ⟨?_, ?_, ?_⟩ <;> intro x hx <;> simp [emptyStore] at hx)
  exact h

end Procurement
